import Mathlib

/-!
Verification of the edtry-chunker service (src/app.py), a FastAPI app that
accepts lesson text on POST /chunk, checks an API-key header and a lesson
type, splits the content into chunks in a background task, and forwards the
result to a configured URL with a bounded exponential-backoff retry loop.

The Python functions are shallowly embedded as pure Lean functions.
Side effects (log lines, sleeps, outbound POSTs, printing) are recorded as
explicit event traces; Python exceptions are modelled with `Except`.
Python floats only ever hold the values `delay * 2 ** attempt` with
`delay = 2.0`, all exactly representable, so delays are modelled as `ℚ`.
The third-party chunker (the RecursiveChunker of chonkie) and the network are
external to the repository and enter as function parameters.
-/

namespace Edtry

/-- Environment-derived configuration of app.py: `API_KEY` is
`os.getenv("EDTRY_INTERNAL_API_KEY")` and `LARAVEL_API_URL` is
`os.getenv("LARAVEL_API_URL")`; `os.getenv` returns `None` when the
variable is absent, hence `Option String`. -/
structure Config where
  apiKey : Option String
  laravelUrl : Option String
deriving DecidableEq

/-- The request body model `LessonInput` of app.py (pydantic `BaseModel`):
two ints, two strings and a free-form `type` string. -/
structure LessonInput where
  course_id : Int
  lesson_id : Int
  lesson_title : String
  lesson_content : String
  type : String
deriving DecidableEq

/-- One element of the `chunks` list built in `process_lesson`:
the dict `{"text": c.text, "chunk_index": idx}`. -/
structure ChunkRecord where
  text : String
  chunk_index : Nat
deriving DecidableEq

/-- The JSON payload dict assembled in `process_lesson`: exactly the keys
`title`, `text`, `course_id`, `lesson_id`, `type`, `chunks`. -/
structure Payload where
  title : String
  text : String
  course_id : Int
  lesson_id : Int
  type : String
  chunks : List ChunkRecord
deriving DecidableEq

/-- An outbound POST as issued by `send_to_laravel_with_retry`:
`client.post(LARAVEL_API_URL, json=payload, headers={"X-Internal-API-Key": API_KEY})`. -/
structure PostRequest where
  url : Option String
  xInternalApiKey : Option String
  body : Payload
deriving DecidableEq

/-- What one delivery attempt does, as observed by the retry loop: either
the POST succeeds and `raise_for_status` passes (the response JSON is
abstracted to a string), or an `httpx.HTTPError` is raised (by the
transport or by `raise_for_status`). -/
inductive AttemptResult where
  | success (json : String)
  | httpError
deriving DecidableEq

/-- Observable events of `send_to_laravel_with_retry`, in program order. -/
inductive SendEvent where
  /-- the POST of a given 0-based attempt, with the request it sends -/
  | post (attempt : Nat) (req : PostRequest)
  /-- `logger.info("Successfully sent to Laravel.")` -/
  | logSuccess
  /-- `logger.warning(f"[Attempt {attempt+1}] Failed to send to Laravel: ...")` -/
  | warn (attempt : Nat)
  /-- `await asyncio.sleep(d)` -/
  | sleep (d : ℚ)
  /-- `logger.error(f"All retries failed. ...")` -/
  | logRetriesExhausted
deriving DecidableEq

/-- How `send_to_laravel_with_retry` finishes: returns `response.json()`,
falls off the `for` loop returning `None` (only possible when
`retries = 0`), or re-raises the last `httpx.HTTPError`. -/
inductive SendOutcome where
  | ok (json : String)
  | returnedNone
  | raised
deriving DecidableEq

/-- The request `send_to_laravel_with_retry` posts on every attempt. -/
def mkReq (cfg : Config) (payload : Payload) : PostRequest :=
  ⟨cfg.laravelUrl, cfg.apiKey, payload⟩

/-- The body of the `for attempt in range(retries)` loop of
`send_to_laravel_with_retry`, unrolled with an explicit iteration budget:
`remaining` iterations are left and the current index is `attempt`
(invariant of the call sites: `attempt + remaining = retries`).
On success: log and return the JSON. On `httpx.HTTPError`: warn, and
either sleep `delay * 2 ** attempt` and continue (when
`attempt < retries - 1`, compared over ℤ as Python ints) or log the final
error and re-raise. The `target` parameter is the external network: what
attempt number `n` would observe. -/
def sendGo (cfg : Config) (target : Nat → AttemptResult) (payload : Payload)
    (retries : Nat) (delay : ℚ) (attempt : Nat) :
    Nat → List SendEvent × SendOutcome
  | 0 => ([], SendOutcome.returnedNone)
  | remaining + 1 =>
    match target attempt with
    | AttemptResult.success v =>
        ([SendEvent.post attempt (mkReq cfg payload), SendEvent.logSuccess],
         SendOutcome.ok v)
    | AttemptResult.httpError =>
        if (attempt : Int) < (retries : Int) - 1 then
          let rest := sendGo cfg target payload retries delay (attempt + 1) remaining
          (SendEvent.post attempt (mkReq cfg payload) :: SendEvent.warn attempt ::
             SendEvent.sleep (delay * 2 ^ attempt) :: rest.1,
           rest.2)
        else
          ([SendEvent.post attempt (mkReq cfg payload), SendEvent.warn attempt,
            SendEvent.logRetriesExhausted],
           SendOutcome.raised)

/-- `send_to_laravel_with_retry(payload, retries, delay)` of app.py.
The defaults at the only call site are `retries = 3`, `delay = 2.0`. -/
def send_to_laravel_with_retry (cfg : Config) (target : Nat → AttemptResult)
    (payload : Payload) (retries : Nat) (delay : ℚ) :
    List SendEvent × SendOutcome :=
  sendGo cfg target payload retries delay 0 retries

/-- Number of POSTs (delivery attempts) in a send trace. -/
def countPosts (evs : List SendEvent) : Nat :=
  (evs.filter fun e =>
    match e with
    | SendEvent.post _ _ => true
    | _ => false).length

/-- The sleep durations of a send trace, in order. -/
def sleepDurations (evs : List SendEvent) : List ℚ :=
  evs.filterMap fun e =>
    match e with
    | SendEvent.sleep d => some d
    | _ => none

/-- Python whitespace stripped by `str.strip()` with no argument (the
ASCII whitespace characters; no claim depends on non-ASCII whitespace). -/
def isPySpace (c : Char) : Bool :=
  c = ' ' || c = '\t' || c = '\n' || c = '\x0d' || c = '\x0b' || c = '\x0c'

/-- Python `s.strip()`: remove leading and trailing whitespace. -/
def pyStrip (s : String) : String :=
  ⟨((s.data.dropWhile isPySpace).reverse.dropWhile isPySpace).reverse⟩

/-- A Python exception value, as far as the claims need it: the
`ValueError("No chunks produced.")` raised in `process_lesson`, or any
other exception (e.g. one raised by the third-party chunker). -/
inductive PyExn where
  | valueError (msg : String)
  | other
deriving DecidableEq

/-- The list comprehension of `process_lesson`:
`[{"text": c.text, "chunk_index": idx} for idx, c in enumerate(chunked_objs)]`.
A chunk object is abstracted to its `.text` (the only attribute read). -/
def buildChunks (objs : List String) : List ChunkRecord :=
  objs.enum.map fun p => ⟨p.2, p.1⟩

/-- The chunking stage inside the first `try` of `process_lesson`: run the
chunker (which may itself raise), build the indexed chunk dicts, and raise
`ValueError("No chunks produced.")` when the list is empty. -/
def chunkStage (res : Except PyExn (List String)) :
    Except PyExn (List ChunkRecord) :=
  match res with
  | Except.error e => Except.error e
  | Except.ok objs =>
      let chunks := buildChunks objs
      if chunks.isEmpty then Except.error (PyExn.valueError "No chunks produced.")
      else Except.ok chunks

/-- Observable events of `process_lesson`, in program order. -/
inductive ProcEvent where
  /-- `logger.error(f"Chunking failed for lesson ...")` followed by `return` -/
  | logChunkingFailed
  /-- `print(payload)` -/
  | printPayload (p : Payload)
  /-- an event of the inner `send_to_laravel_with_retry` call -/
  | send (e : SendEvent)
  /-- `logger.info(f"Successfully processed and sent lesson ...")` -/
  | logProcessedOk
  /-- `logger.error(f"Final failure sending lesson ... to Laravel: ...")` -/
  | logFinalFailure
deriving DecidableEq

/-- The payload dict assembled in `process_lesson` (lines 85-92 of app.py):
`title` is the trimmed `lesson_title`, `text` the trimmed `lesson_content`,
`course_id`, `lesson_id` and `type` are copied verbatim, `chunks` is the
indexed chunk list. -/
def mkPayload (data : LessonInput) (chunks : List ChunkRecord) : Payload :=
  ⟨pyStrip data.lesson_title, pyStrip data.lesson_content, data.course_id,
   data.lesson_id, data.type, chunks⟩

/-- `process_lesson(data)` of app.py. `chunkerFn` is the third-party
`chunker(full_text)` call (the RecursiveChunker of chonkie), abstracted to the
list of chunk texts it returns, or the exception it raises; `target` is
the external delivery endpoint. Returns the event trace and the
exception outcome of the function itself (`Except.ok ()` = returned
normally). The first `try/except Exception` catches chunker exceptions
and the empty-chunks `ValueError`; the second catches everything the
retry helper re-raises. The inner call uses the defaults of the helper
`retries = 3`, `delay = 2.0`. -/
def process_lesson (cfg : Config) (chunkerFn : String → Except PyExn (List String))
    (target : Nat → AttemptResult) (data : LessonInput) :
    List ProcEvent × Except PyExn Unit :=
  let full_text := pyStrip data.lesson_content
  match chunkStage (chunkerFn full_text) with
  | Except.error _ => ([ProcEvent.logChunkingFailed], Except.ok ())
  | Except.ok chunks =>
      let payload : Payload := mkPayload data chunks
      let res := send_to_laravel_with_retry cfg target payload 3 2
      match res.2 with
      | SendOutcome.raised =>
          (ProcEvent.printPayload payload :: res.1.map ProcEvent.send ++
             [ProcEvent.logFinalFailure],
           Except.ok ())
      | _ =>
          (ProcEvent.printPayload payload :: res.1.map ProcEvent.send ++
             [ProcEvent.logProcessedOk],
           Except.ok ())

/-- Python `x_internal_api_key != API_KEY` where the left side is a `str`
and `API_KEY` is `Optional[str]`: a string never compares equal to `None`. -/
def pyNeqOptStr (x : String) (k : Option String) : Bool :=
  match k with
  | none => true
  | some s => x != s

/-- `verify_api_key` of app.py: `some (status, detail)` when it raises
`HTTPException`, `none` when it passes. -/
def verify_api_key (cfg : Config) (header : String) : Option (Nat × String) :=
  if pyNeqOptStr header cfg.apiKey then some (401, "Unauthorized") else none

/-- The HTTP response of the `/chunk` route. `validationError` is
the 422 request-validation rejection of FastAPI: the parameter
`x_internal_api_key: str = Header(...)` is required, so a request without
the header never reaches `verify_api_key` or the handler body. -/
inductive HttpResponse where
  | validationError
  | httpError (status : Nat) (detail : String)
  | okJson (message : String)
deriving DecidableEq

/-- What handling one `/chunk` request produces: the response sent to the
caller, and the background task scheduled via
`background_tasks.add_task(process_lesson, data)`, if any. -/
structure HandlerOutcome where
  response : HttpResponse
  scheduled : Option LessonInput
deriving DecidableEq

/-- The `POST /chunk` route `chunk_lesson` of app.py, including the
framework steps that precede the handler body: a missing required header
is rejected by FastAPI request validation (422); the `Depends(verify_api_key)`
dependency runs next and may raise 401; then the handler body checks
`data.type not in {"created", "updated", "deleted"}` (400) and otherwise
schedules `process_lesson` and returns the acknowledgement message. The
response is computed without invoking `process_lesson`. -/
def chunk_lesson (cfg : Config) (header : Option String) (data : LessonInput) :
    HandlerOutcome :=
  match header with
  | none => ⟨HttpResponse.validationError, none⟩
  | some h =>
      match verify_api_key cfg h with
      | some sd => ⟨HttpResponse.httpError sd.1 sd.2, none⟩
      | none =>
          if !(data.type == "created" || data.type == "updated" ||
               data.type == "deleted") then
            ⟨HttpResponse.httpError 400 "Invalid lesson type", none⟩
          else
            ⟨HttpResponse.okJson
               "Chunking request accepted and processing in background.",
             some data⟩

/-! ### Helper lemmas -/

@[simp]
lemma countPosts_nil : countPosts [] = 0 := rfl

@[simp]
lemma countPosts_cons_post (a : Nat) (r : PostRequest) (evs : List SendEvent) :
    countPosts (SendEvent.post a r :: evs) = countPosts evs + 1 := rfl

@[simp]
lemma countPosts_cons_warn (a : Nat) (evs : List SendEvent) :
    countPosts (SendEvent.warn a :: evs) = countPosts evs := rfl

@[simp]
lemma countPosts_cons_sleep (d : ℚ) (evs : List SendEvent) :
    countPosts (SendEvent.sleep d :: evs) = countPosts evs := rfl

@[simp]
lemma countPosts_cons_logSuccess (evs : List SendEvent) :
    countPosts (SendEvent.logSuccess :: evs) = countPosts evs := rfl

@[simp]
lemma countPosts_cons_logRetriesExhausted (evs : List SendEvent) :
    countPosts (SendEvent.logRetriesExhausted :: evs) = countPosts evs := rfl

@[simp]
lemma sleepDurations_nil : sleepDurations [] = [] := rfl

@[simp]
lemma sleepDurations_cons_post (a : Nat) (r : PostRequest) (evs : List SendEvent) :
    sleepDurations (SendEvent.post a r :: evs) = sleepDurations evs := rfl

@[simp]
lemma sleepDurations_cons_warn (a : Nat) (evs : List SendEvent) :
    sleepDurations (SendEvent.warn a :: evs) = sleepDurations evs := rfl

@[simp]
lemma sleepDurations_cons_sleep (d : ℚ) (evs : List SendEvent) :
    sleepDurations (SendEvent.sleep d :: evs) = d :: sleepDurations evs := rfl

@[simp]
lemma sleepDurations_cons_logSuccess (evs : List SendEvent) :
    sleepDurations (SendEvent.logSuccess :: evs) = sleepDurations evs := rfl

@[simp]
lemma sleepDurations_cons_logRetriesExhausted (evs : List SendEvent) :
    sleepDurations (SendEvent.logRetriesExhausted :: evs) = sleepDurations evs := rfl

/-- When every attempt fails, each remaining loop iteration makes exactly one
POST, the loop runs to the last index, logs the final error and re-raises. -/
lemma sendGo_all_fail (cfg : Config) (target : Nat → AttemptResult)
    (payload : Payload) (retries : Nat) (delay : ℚ)
    (hfail : ∀ n, target n = AttemptResult.httpError) :
    ∀ remaining attempt, attempt + remaining = retries → 1 ≤ remaining →
      countPosts (sendGo cfg target payload retries delay attempt remaining).1
          = remaining ∧
      SendEvent.logRetriesExhausted ∈
          (sendGo cfg target payload retries delay attempt remaining).1 ∧
      (sendGo cfg target payload retries delay attempt remaining).2
          = SendOutcome.raised := by
  intro remaining
  induction remaining with
  | zero => intro attempt _ h1; omega
  | succ r ih =>
    intro attempt hsum _
    rcases Nat.eq_zero_or_pos r with hr | hr
    · subst hr
      have hlt : ¬ ((attempt : Int) < (retries : Int) - 1) := by omega
      simp [sendGo, hfail, hlt, countPosts]
    · have hlt : (attempt : Int) < (retries : Int) - 1 := by omega
      have := ih (attempt + 1) (by omega) hr
      simp only [sendGo, hfail, hlt, if_true]
      refine ⟨?_, ?_, ?_⟩
      · simpa using this.1
      · simp [this.2.1]
      · exact this.2.2

/-- Every POST the retry loop emits carries the configured URL, the
`X-Internal-API-Key` header and the payload. -/
lemma sendGo_post_req (cfg : Config) (target : Nat → AttemptResult)
    (payload : Payload) (retries : Nat) (delay : ℚ) :
    ∀ remaining attempt a r,
      SendEvent.post a r ∈
        (sendGo cfg target payload retries delay attempt remaining).1 →
      r = mkReq cfg payload := by
  intro remaining
  induction remaining with
  | zero => intro attempt a r h; simp [sendGo] at h
  | succ rem ih =>
    intro attempt a r h
    rw [sendGo] at h
    rcases htgt : target attempt with v | _ <;> rw [htgt] at h
    · simp only [List.mem_cons, List.not_mem_nil, or_false] at h
      rcases h with h | h
      · injection h with ha hr
      · exact SendEvent.noConfusion h
    · by_cases hlt : (attempt : Int) < (retries : Int) - 1
      · rw [if_pos hlt] at h
        simp only [List.mem_cons] at h
        rcases h with h | h | h | h
        · injection h with ha hr
        · exact SendEvent.noConfusion h
        · exact SendEvent.noConfusion h
        · exact ih (attempt + 1) a r h
      · rw [if_neg hlt] at h
        simp only [List.mem_cons, List.not_mem_nil, or_false] at h
        rcases h with h | h | h
        · injection h with ha hr
        · exact SendEvent.noConfusion h
        · exact SendEvent.noConfusion h

/-- With at least one iteration left, the first event of the loop is the POST of
the current attempt. -/
lemma sendGo_head_post (cfg : Config) (target : Nat → AttemptResult)
    (payload : Payload) (retries : Nat) (delay : ℚ)
    (remaining attempt : Nat) (h1 : 1 ≤ remaining) :
    ∃ rest, (sendGo cfg target payload retries delay attempt remaining).1
      = SendEvent.post attempt (mkReq cfg payload) :: rest := by
  rcases remaining with _ | rem
  · omega
  · rw [sendGo]
    rcases target attempt with v | _
    · exact ⟨_, rfl⟩
    · by_cases hlt : (attempt : Int) < (retries : Int) - 1
      · rw [if_pos hlt]; exact ⟨_, rfl⟩
      · rw [if_neg hlt]; exact ⟨_, rfl⟩

/-- `buildChunks` indices are exactly `0, 1, ..., n-1` in order. -/
lemma buildChunks_map_index (objs : List String) :
    (buildChunks objs).map ChunkRecord.chunk_index = List.range objs.length := by
  rw [buildChunks, List.map_map]
  have h : (ChunkRecord.chunk_index ∘ fun p : Nat × String =>
      (⟨p.2, p.1⟩ : ChunkRecord)) = Prod.fst := by
    funext p; rfl
  rw [h, List.enum_map_fst]

/-- `buildChunks` texts are the texts of the chunker, in order. -/
lemma buildChunks_map_text (objs : List String) :
    (buildChunks objs).map ChunkRecord.text = objs := by
  rw [buildChunks, List.map_map]
  have h : (ChunkRecord.text ∘ fun p : Nat × String =>
      (⟨p.2, p.1⟩ : ChunkRecord)) = Prod.snd := by
    funext p; rfl
  rw [h, List.enum_map_snd]

@[simp]
lemma buildChunks_eq_nil_iff (objs : List String) :
    buildChunks objs = [] ↔ objs = [] := by
  simp [buildChunks]

@[simp]
lemma buildChunks_length (objs : List String) :
    (buildChunks objs).length = objs.length := by
  simp [buildChunks]

/-- The log line `process_lesson` emits after the delivery call, as a
function of the delivery outcome (re-raised error vs. return). -/
def tailLog (o : SendOutcome) : ProcEvent :=
  match o with
  | SendOutcome.raised => ProcEvent.logFinalFailure
  | _ => ProcEvent.logProcessedOk

lemma tailLog_ne_send (o : SendOutcome) (s : SendEvent) :
    tailLog o ≠ ProcEvent.send s := by
  cases o <;> simp [tailLog]

/-- Shape of a `process_lesson` run whose chunking stage succeeds. -/
lemma process_lesson_eq_of_chunks (cfg : Config)
    (chunkerFn : String → Except PyExn (List String))
    (target : Nat → AttemptResult) (data : LessonInput) (objs : List String)
    (hc : chunkerFn (pyStrip data.lesson_content) = Except.ok objs)
    (hne : objs ≠ []) :
    process_lesson cfg chunkerFn target data =
      (ProcEvent.printPayload (mkPayload data (buildChunks objs)) ::
         (send_to_laravel_with_retry cfg target
            (mkPayload data (buildChunks objs)) 3 2).1.map ProcEvent.send ++
         [tailLog (send_to_laravel_with_retry cfg target
            (mkPayload data (buildChunks objs)) 3 2).2],
       Except.ok ()) := by
  have hstage : chunkStage (chunkerFn (pyStrip data.lesson_content))
      = Except.ok (buildChunks objs) := by
    rw [hc, chunkStage]
    have hbe : (buildChunks objs).isEmpty = false := by
      simp [List.isEmpty_iff, hne]
    simp [hbe]
  rw [process_lesson, hstage]
  rcases hres : (send_to_laravel_with_retry cfg target
      (mkPayload data (buildChunks objs)) 3 2).2 with v | _ | _ <;>
    simp [hres, tailLog]

/-! ### Sample inputs used by the closed witness theorems -/

/-- A concrete request body. -/
def sampleLesson : LessonInput :=
  ⟨1, 42, " Intro ", "  Some lesson content, long enough to chunk.  ", "created"⟩

/-- A concrete configuration with both environment variables set. -/
def sampleCfg : Config :=
  ⟨some "secret", some "http://laravel.internal/api/lesson-chunks"⟩

/-- A concrete chunker returning one chunk text. -/
def sampleChunker : String → Except PyExn (List String) :=
  fun s => Except.ok [s]

/-- A concrete delivery endpoint that always fails. -/
def alwaysFail : Nat → AttemptResult :=
  fun _ => AttemptResult.httpError

/-- A concrete delivery endpoint that fails twice, then succeeds. -/
def failTwice : Nat → AttemptResult :=
  fun n => if n < 2 then AttemptResult.httpError else AttemptResult.success "ok"

/-! ### Claims -/

/-- C3: with the correct API key and a `type` outside
{created, updated, deleted}, the `/chunk` handler answers 400
"Invalid lesson type" and schedules no background task. -/
theorem invalid_type_400_no_background_task
    (cfg : Config) (k : String) (data : LessonInput)
    (hk : cfg.apiKey = some k)
    (ht : data.type ≠ "created" ∧ data.type ≠ "updated" ∧ data.type ≠ "deleted") :
    chunk_lesson cfg (some k) data =
      ⟨HttpResponse.httpError 400 "Invalid lesson type", none⟩ := by
  simp [chunk_lesson, verify_api_key, pyNeqOptStr, hk, ht.1, ht.2.1, ht.2.2]

/-- C3 witness at a concrete request. -/
theorem invalid_type_400_no_background_task_witness :
    chunk_lesson sampleCfg (some "secret") ⟨1, 42, "T", "C", "destroyed"⟩ =
      ⟨HttpResponse.httpError 400 "Invalid lesson type", none⟩ :=
  invalid_type_400_no_background_task sampleCfg "secret" ⟨1, 42, "T", "C", "destroyed"⟩
    rfl (by refine ⟨?_, ?_, ?_⟩ <;> decide)

/-- C9: with the correct API key and a recognized `type`, the handler
immediately returns the single-field acknowledgement message and schedules
`process_lesson` on the request data; the response is computed without
running chunking or delivery. -/
theorem valid_request_immediate_ack
    (cfg : Config) (k : String) (data : LessonInput)
    (hk : cfg.apiKey = some k)
    (ht : data.type = "created" ∨ data.type = "updated" ∨ data.type = "deleted") :
    chunk_lesson cfg (some k) data =
      ⟨HttpResponse.okJson "Chunking request accepted and processing in background.",
       some data⟩ := by
  rcases ht with h | h | h <;>
    simp [chunk_lesson, verify_api_key, pyNeqOptStr, hk, h]

/-- C9 witness at a concrete request. -/
theorem valid_request_immediate_ack_witness :
    chunk_lesson sampleCfg (some "secret") sampleLesson =
      ⟨HttpResponse.okJson "Chunking request accepted and processing in background.",
       some sampleLesson⟩ :=
  valid_request_immediate_ack sampleCfg "secret" sampleLesson rfl (Or.inl rfl)

/-- C10: when `EDTRY_INTERNAL_API_KEY` is absent (`API_KEY = None`),
every request is rejected with 401 whatever string the header carries:
a `str` never compares equal to `None`. -/
theorem absent_secret_always_401
    (cfg : Config) (h : String) (data : LessonInput)
    (hk : cfg.apiKey = none) :
    chunk_lesson cfg (some h) data =
      ⟨HttpResponse.httpError 401 "Unauthorized", none⟩ := by
  simp [chunk_lesson, verify_api_key, pyNeqOptStr, hk]

/-- C10 witness at a concrete request carrying some header string. -/
theorem absent_secret_always_401_witness :
    chunk_lesson ⟨none, some "http://laravel.internal/api/lesson-chunks"⟩
        (some "whatever") sampleLesson =
      ⟨HttpResponse.httpError 401 "Unauthorized", none⟩ :=
  absent_secret_always_401 ⟨none, some "http://laravel.internal/api/lesson-chunks"⟩
    "whatever" sampleLesson rfl

/-- C6: when the chunker raises, or returns an empty list (turned into
`ValueError("No chunks produced.")`), `process_lesson` emits exactly the
chunking-failure log and returns: no payload is printed, no delivery
attempt or retry happens, and no exception escapes. -/
theorem chunking_failure_logged_and_aborts
    (cfg : Config) (chunkerFn : String → Except PyExn (List String))
    (target : Nat → AttemptResult) (data : LessonInput)
    (hfail : (∃ e, chunkerFn (pyStrip data.lesson_content) = Except.error e) ∨
             chunkerFn (pyStrip data.lesson_content) = Except.ok []) :
    process_lesson cfg chunkerFn target data =
      ([ProcEvent.logChunkingFailed], Except.ok ()) := by
  rcases hfail with ⟨e, he⟩ | he <;>
    simp [process_lesson, chunkStage, he, buildChunks]

/-- C6 witness: a chunker that raises, and one that returns no chunks. -/
theorem chunking_failure_logged_and_aborts_witness :
    process_lesson sampleCfg (fun _ => Except.error PyExn.other) alwaysFail
        sampleLesson = ([ProcEvent.logChunkingFailed], Except.ok ()) ∧
    process_lesson sampleCfg (fun _ => Except.ok []) alwaysFail
        sampleLesson = ([ProcEvent.logChunkingFailed], Except.ok ()) :=
  ⟨chunking_failure_logged_and_aborts sampleCfg (fun _ => Except.error PyExn.other)
      alwaysFail sampleLesson (Or.inl ⟨PyExn.other, rfl⟩),
   chunking_failure_logged_and_aborts sampleCfg (fun _ => Except.ok [])
      alwaysFail sampleLesson (Or.inr rfl)⟩

/-- C8: `process_lesson` always terminates normally with no escaping
exception, and every run either stops at the chunking-failure log or ends
in one of the two terminal delivery logs. -/
theorem process_lesson_never_raises
    (cfg : Config) (chunkerFn : String → Except PyExn (List String))
    (target : Nat → AttemptResult) (data : LessonInput) :
    (process_lesson cfg chunkerFn target data).2 = Except.ok () ∧
    ((process_lesson cfg chunkerFn target data).1 = [ProcEvent.logChunkingFailed] ∨
     ProcEvent.logProcessedOk ∈ (process_lesson cfg chunkerFn target data).1 ∨
     ProcEvent.logFinalFailure ∈ (process_lesson cfg chunkerFn target data).1) := by
  rw [process_lesson]
  rcases hcs : chunkStage (chunkerFn (pyStrip data.lesson_content)) with e | chunks
  · simp
  · rcases hres : (send_to_laravel_with_retry cfg target (mkPayload data chunks) 3 2).2
      with v | _ | _ <;> simp [hres]

/-- C1: against an always-failing delivery target, the retry helper makes
exactly `retries` POSTs (default 3), logs the exhaustion error and
re-raises; `process_lesson` (which calls it with the defaults) catches the
re-raised error, logs the final failure, and returns normally, so nothing
escapes the background task. -/
theorem retry_exhaustion_bounded_logged_swallowed
    (cfg : Config) (target : Nat → AttemptResult) (payload : Payload)
    (retries : Nat) (delay : ℚ)
    (chunkerFn : String → Except PyExn (List String)) (data : LessonInput)
    (objs : List String)
    (hfail : ∀ n, target n = AttemptResult.httpError)
    (hretries : 1 ≤ retries)
    (hc : chunkerFn (pyStrip data.lesson_content) = Except.ok objs)
    (hne : objs ≠ []) :
    countPosts (send_to_laravel_with_retry cfg target payload retries delay).1
        = retries ∧
    SendEvent.logRetriesExhausted ∈
        (send_to_laravel_with_retry cfg target payload retries delay).1 ∧
    (send_to_laravel_with_retry cfg target payload retries delay).2
        = SendOutcome.raised ∧
    ProcEvent.logFinalFailure ∈ (process_lesson cfg chunkerFn target data).1 ∧
    (process_lesson cfg chunkerFn target data).2 = Except.ok () := by
  have hsend := sendGo_all_fail cfg target payload retries delay hfail
    retries 0 (by omega) hretries
  have hsend3 := sendGo_all_fail cfg target (mkPayload data (buildChunks objs))
    3 2 hfail 3 0 (by omega) (by omega)
  have hproc := process_lesson_eq_of_chunks cfg chunkerFn target data objs hc hne
  have htail : tailLog (send_to_laravel_with_retry cfg target
      (mkPayload data (buildChunks objs)) 3 2).2 = ProcEvent.logFinalFailure := by
    rw [send_to_laravel_with_retry, hsend3.2.2]
    rfl
  refine ⟨hsend.1, hsend.2.1, hsend.2.2, ?_, ?_⟩
  · rw [hproc, htail]
    simp
  · rw [hproc]

/-- C1 witness: concrete always-failing target with the default
`retries = 3`, `delay = 2.0`, and a chunker returning one chunk. -/
theorem retry_exhaustion_bounded_logged_swallowed_witness :
    countPosts (send_to_laravel_with_retry sampleCfg alwaysFail
        (mkPayload sampleLesson (buildChunks ["c"])) 3 2).1 = 3 ∧
    SendEvent.logRetriesExhausted ∈
        (send_to_laravel_with_retry sampleCfg alwaysFail
          (mkPayload sampleLesson (buildChunks ["c"])) 3 2).1 ∧
    (send_to_laravel_with_retry sampleCfg alwaysFail
        (mkPayload sampleLesson (buildChunks ["c"])) 3 2).2
        = SendOutcome.raised ∧
    ProcEvent.logFinalFailure ∈
        (process_lesson sampleCfg (fun _ => Except.ok ["c"]) alwaysFail
          sampleLesson).1 ∧
    (process_lesson sampleCfg (fun _ => Except.ok ["c"]) alwaysFail
        sampleLesson).2 = Except.ok () :=
  retry_exhaustion_bounded_logged_swallowed sampleCfg alwaysFail
    (mkPayload sampleLesson (buildChunks ["c"])) 3 2
    (fun _ => Except.ok ["c"]) sampleLesson ["c"]
    (fun _ => rfl) (by decide) rfl (by decide)

/-- C2: against a target that fails on attempts 1 and 2 and succeeds on
attempt 3, the retry helper (with `retries = 3`) returns the success on
the third POST, and the sleeps between attempts are
`delay * 2 ^ 0` then `delay * 2 ^ 1` — with the default `delay = 2.0`,
2.0 s then 4.0 s, doubling each attempt. -/
theorem retry_two_failures_then_third_success
    (cfg : Config) (target : Nat → AttemptResult) (payload : Payload)
    (delay : ℚ) (v : String)
    (h0 : target 0 = AttemptResult.httpError)
    (h1 : target 1 = AttemptResult.httpError)
    (h2 : target 2 = AttemptResult.success v) :
    send_to_laravel_with_retry cfg target payload 3 delay =
      ([SendEvent.post 0 (mkReq cfg payload), SendEvent.warn 0,
        SendEvent.sleep (delay * 2 ^ 0),
        SendEvent.post 1 (mkReq cfg payload), SendEvent.warn 1,
        SendEvent.sleep (delay * 2 ^ 1),
        SendEvent.post 2 (mkReq cfg payload), SendEvent.logSuccess],
       SendOutcome.ok v) ∧
    countPosts (send_to_laravel_with_retry cfg target payload 3 delay).1 = 3 ∧
    sleepDurations (send_to_laravel_with_retry cfg target payload 3 delay).1
        = [delay * 2 ^ 0, delay * 2 ^ 1] ∧
    sleepDurations (send_to_laravel_with_retry cfg target payload 3 2).1
        = [2, 4] := by
  have key : ∀ d : ℚ, send_to_laravel_with_retry cfg target payload 3 d =
      ([SendEvent.post 0 (mkReq cfg payload), SendEvent.warn 0,
        SendEvent.sleep (d * 2 ^ 0),
        SendEvent.post 1 (mkReq cfg payload), SendEvent.warn 1,
        SendEvent.sleep (d * 2 ^ 1),
        SendEvent.post 2 (mkReq cfg payload), SendEvent.logSuccess],
       SendOutcome.ok v) := by
    intro d
    rw [send_to_laravel_with_retry]
    rw [sendGo, h0, if_pos (by norm_num)]
    rw [sendGo, h1, if_pos (by norm_num)]
    rw [sendGo, h2]
  refine ⟨key delay, ?_, ?_, ?_⟩
  · rw [key delay]; rfl
  · rw [key delay]; rfl
  · rw [key 2]; norm_num

/-- C2 witness at a concrete fail-twice-then-succeed target with the
default `delay = 2.0`. -/
theorem retry_two_failures_then_third_success_witness :
    send_to_laravel_with_retry sampleCfg failTwice
        (mkPayload sampleLesson (buildChunks ["c"])) 3 2 =
      ([SendEvent.post 0 (mkReq sampleCfg (mkPayload sampleLesson (buildChunks ["c"]))),
        SendEvent.warn 0, SendEvent.sleep (2 * 2 ^ 0),
        SendEvent.post 1 (mkReq sampleCfg (mkPayload sampleLesson (buildChunks ["c"]))),
        SendEvent.warn 1, SendEvent.sleep (2 * 2 ^ 1),
        SendEvent.post 2 (mkReq sampleCfg (mkPayload sampleLesson (buildChunks ["c"]))),
        SendEvent.logSuccess],
       SendOutcome.ok "ok") :=
  (retry_two_failures_then_third_success sampleCfg failTwice
    (mkPayload sampleLesson (buildChunks ["c"])) 2 "ok" rfl rfl rfl).1

/-- C5: assuming the third-party chunker splits the trimmed content into a
non-empty list of texts whose concatenation is the trimmed content (its
contract for content longer than the minimum chunk size), the chunking
stage of `process_lesson` succeeds with a non-empty chunk-record list whose
`chunk_index` values are exactly `0, 1, ..., n-1` in order, whose texts are
the texts of the chunker in source order, and whose concatenation reconstructs
the trimmed source text. -/
theorem chunking_contiguous_ordered_lossless
    (chunkerFn : String → Except PyExn (List String)) (data : LessonInput)
    (objs : List String)
    (hc : chunkerFn (pyStrip data.lesson_content) = Except.ok objs)
    (hne : objs ≠ [])
    (hjoin : String.join objs = pyStrip data.lesson_content) :
    chunkStage (chunkerFn (pyStrip data.lesson_content))
        = Except.ok (buildChunks objs) ∧
    buildChunks objs ≠ [] ∧
    (buildChunks objs).map ChunkRecord.chunk_index
        = List.range (buildChunks objs).length ∧
    (buildChunks objs).map ChunkRecord.text = objs ∧
    String.join ((buildChunks objs).map ChunkRecord.text)
        = pyStrip data.lesson_content := by
  refine ⟨?_, ?_, ?_, ?_, ?_⟩
  · rw [hc, chunkStage]
    have hbe : (buildChunks objs).isEmpty = false := by
      simp [List.isEmpty_iff, hne]
    simp [hbe]
  · simp [hne]
  · rw [buildChunks_length, buildChunks_map_index]
  · exact buildChunks_map_text objs
  · rw [buildChunks_map_text]; exact hjoin

/-- C5 witness: a concrete two-chunk split of the trimmed sample content. -/
theorem chunking_contiguous_ordered_lossless_witness :
    chunkStage ((fun _ => Except.ok ["Some lesson content,",
        " long enough to chunk."] : String → Except PyExn (List String))
        (pyStrip sampleLesson.lesson_content))
      = Except.ok (buildChunks ["Some lesson content,", " long enough to chunk."]) ∧
    buildChunks ["Some lesson content,", " long enough to chunk."] ≠ [] ∧
    (buildChunks ["Some lesson content,", " long enough to chunk."]).map
        ChunkRecord.chunk_index
      = List.range (buildChunks ["Some lesson content,",
          " long enough to chunk."]).length ∧
    (buildChunks ["Some lesson content,", " long enough to chunk."]).map
        ChunkRecord.text
      = ["Some lesson content,", " long enough to chunk."] ∧
    String.join ((buildChunks ["Some lesson content,",
        " long enough to chunk."]).map ChunkRecord.text)
      = pyStrip sampleLesson.lesson_content :=
  chunking_contiguous_ordered_lossless
    (fun _ => Except.ok ["Some lesson content,", " long enough to chunk."])
    sampleLesson ["Some lesson content,", " long enough to chunk."]
    rfl (by decide) (by decide)

/-- C7: when chunking succeeds, `process_lesson` prints the payload with
exactly the fields `title` (trimmed `lesson_title`), `text` (trimmed
`lesson_content`), verbatim `course_id`, `lesson_id` and `type`, and the
ordered `chunks` list; at least one POST is issued, and every POST of the
run goes to the configured URL with the `X-Internal-API-Key` header set to
the shared secret and that payload as JSON body. -/
theorem outbound_post_url_header_payload
    (cfg : Config) (chunkerFn : String → Except PyExn (List String))
    (target : Nat → AttemptResult) (data : LessonInput) (objs : List String)
    (hc : chunkerFn (pyStrip data.lesson_content) = Except.ok objs)
    (hne : objs ≠ []) :
    mkPayload data (buildChunks objs) =
      ⟨pyStrip data.lesson_title, pyStrip data.lesson_content, data.course_id,
       data.lesson_id, data.type, buildChunks objs⟩ ∧
    mkReq cfg (mkPayload data (buildChunks objs)) =
      ⟨cfg.laravelUrl, cfg.apiKey, mkPayload data (buildChunks objs)⟩ ∧
    ProcEvent.printPayload (mkPayload data (buildChunks objs)) ∈
        (process_lesson cfg chunkerFn target data).1 ∧
    ProcEvent.send (SendEvent.post 0 (mkReq cfg (mkPayload data (buildChunks objs)))) ∈
        (process_lesson cfg chunkerFn target data).1 ∧
    (∀ a r, ProcEvent.send (SendEvent.post a r) ∈
        (process_lesson cfg chunkerFn target data).1 →
      r = mkReq cfg (mkPayload data (buildChunks objs))) := by
  have hproc := process_lesson_eq_of_chunks cfg chunkerFn target data objs hc hne
  refine ⟨rfl, rfl, ?_, ?_, ?_⟩
  · rw [hproc]; simp
  · rw [hproc]
    obtain ⟨rest, hrest⟩ := sendGo_head_post cfg target
      (mkPayload data (buildChunks objs)) 3 2 3 0 (by omega)
    rw [send_to_laravel_with_retry, hrest]
    simp
  · intro a r hmem
    rw [hproc] at hmem
    simp only [List.cons_append, List.mem_cons, List.mem_append,
      List.mem_map, List.mem_singleton] at hmem
    rcases hmem with h | ⟨s, hs, hs2⟩ | h | h
    · exact ProcEvent.noConfusion h
    · injection hs2 with h3
      subst h3
      rw [send_to_laravel_with_retry] at hs
      exact sendGo_post_req cfg target (mkPayload data (buildChunks objs))
        3 2 3 0 a r hs
    · exact absurd h.symm (tailLog_ne_send _ _)
    · simp at h

/-- C7 witness at a concrete request, chunker and always-failing target. -/
theorem outbound_post_url_header_payload_witness :
    mkPayload sampleLesson (buildChunks ["c"]) =
      ⟨pyStrip sampleLesson.lesson_title, pyStrip sampleLesson.lesson_content,
       sampleLesson.course_id, sampleLesson.lesson_id, sampleLesson.type,
       buildChunks ["c"]⟩ ∧
    mkReq sampleCfg (mkPayload sampleLesson (buildChunks ["c"])) =
      ⟨sampleCfg.laravelUrl, sampleCfg.apiKey,
       mkPayload sampleLesson (buildChunks ["c"])⟩ ∧
    ProcEvent.printPayload (mkPayload sampleLesson (buildChunks ["c"])) ∈
        (process_lesson sampleCfg (fun _ => Except.ok ["c"]) alwaysFail
          sampleLesson).1 ∧
    ProcEvent.send (SendEvent.post 0
        (mkReq sampleCfg (mkPayload sampleLesson (buildChunks ["c"])))) ∈
        (process_lesson sampleCfg (fun _ => Except.ok ["c"]) alwaysFail
          sampleLesson).1 ∧
    (∀ a r, ProcEvent.send (SendEvent.post a r) ∈
        (process_lesson sampleCfg (fun _ => Except.ok ["c"]) alwaysFail
          sampleLesson).1 →
      r = mkReq sampleCfg (mkPayload sampleLesson (buildChunks ["c"]))) :=
  outbound_post_url_header_payload sampleCfg (fun _ => Except.ok ["c"])
    alwaysFail sampleLesson ["c"] rfl (by decide)

/-- C4 counterexample: the claim says a request whose `X-Internal-API-Key`
header is missing gets a 401. In the code, `x_internal_api_key: str =
Header(...)` makes the header a required request parameter, so the request validation of FastAPI rejects a header-less request (status 422) before
`verify_api_key` can raise the 401 `HTTPException`. -/
theorem missing_header_is_validation_error_not_401 :
    (chunk_lesson sampleCfg none sampleLesson).response
        = HttpResponse.validationError ∧
    HttpResponse.validationError ≠ HttpResponse.httpError 401 "Unauthorized" ∧
    (chunk_lesson sampleCfg none sampleLesson).scheduled = none := by
  refine ⟨rfl, ?_, rfl⟩
  intro h
  exact HttpResponse.noConfusion h

/-- C4 amended: a request whose header is present but different from the
configured secret (the `!=` comparison of the code succeeds) gets a 401; a
request with no header at all is rejected by FastAPI request validation
(422) before `verify_api_key` runs; in both cases, for every lesson type,
no background task is scheduled. -/
theorem api_key_mismatch_or_missing_rejected
    (cfg : Config) (header : Option String) (data : LessonInput)
    (hwrong : ∀ h, header = some h → pyNeqOptStr h cfg.apiKey = true) :
    (chunk_lesson cfg header data).scheduled = none ∧
    (header = none →
      (chunk_lesson cfg header data).response = HttpResponse.validationError) ∧
    (∀ h, header = some h →
      (chunk_lesson cfg header data).response
        = HttpResponse.httpError 401 "Unauthorized") := by
  rcases header with _ | h
  · exact ⟨rfl, fun _ => rfl, fun h hh => Option.noConfusion hh⟩
  · have hn := hwrong h rfl
    refine ⟨?_, fun hh => Option.noConfusion hh, ?_⟩
    · simp [chunk_lesson, verify_api_key, hn]
    · intro h2 hh2
      injection hh2 with hh2
      subst hh2
      simp [chunk_lesson, verify_api_key, hn]

/-- C4 amended witness: a concrete wrong header string. -/
theorem api_key_mismatch_or_missing_rejected_witness :
    (chunk_lesson sampleCfg (some "wrong") sampleLesson).scheduled = none ∧
    (some "wrong" = (none : Option String) →
      (chunk_lesson sampleCfg (some "wrong") sampleLesson).response
        = HttpResponse.validationError) ∧
    (∀ h, (some "wrong" : Option String) = some h →
      (chunk_lesson sampleCfg (some "wrong") sampleLesson).response
        = HttpResponse.httpError 401 "Unauthorized") :=
  api_key_mismatch_or_missing_rejected sampleCfg (some "wrong") sampleLesson
    (by intro h hh; injection hh with hh; subst hh; decide)

end Edtry
